import Mathlib

/-!
Shallow embedding of the bankbot chat widget (`src/static/user-script.js`,
the variant cited first by every claim; the near-duplicate variants in
`src/unnamed/part_000` and `src/unnamed/part_001` differ only in the
points noted in comments below).

The widget is straight-line, single-threaded DOM glue: we model the chat
log as a list of nodes, the panel / greeted / focus state as record
fields, the optional cue elements (`#balance-amount`, `#txn-body`) by
their presence flags and class lists, and a `setTimeout` call as an
explicit pending timer record.  `sendMsg` becomes a pure function from
the widget state, cue state and the outcome of the single `fetch` to the
resulting state, the issued request, the scheduled timers and the trace
of child-level operations performed on the log node.
-/

/-- A DOM node appended to the chat log: its `className`, its displayed
content, and whether it was inserted via `innerHTML` (`asHtml = true`)
or `textContent`. -/
structure Node where
  className : String
  content : String
  asHtml : Bool
deriving DecidableEq, Repr

/-- `addMsg` (user-script.js lines 22-35): the node built for message
`text` from sender `who`.  JS `text || "…"` replaces a falsy (empty)
string by the ellipsis placeholder; `who === "me"` selects plain-text
insertion, anything else is treated as the bot and inserted as markup. -/
def mkMsg (text : String) (who : String) : Node :=
  { className := "msg " ++ (if who = "me" then "me" else "bot")
    content := if text.isEmpty then "…" else text
    asHtml := who ≠ "me" }

/-- The transient typing bubble built by `showTyping` (lines 38-45). -/
def typingNode : Node :=
  { className := "msg bot typing", content := "typing…", asHtml := false }

/-- The fixed greeting appended on first `openPanel` (line 51). -/
def greetingNode : Node :=
  mkMsg "👋 Hello! Ask me about balance, last transactions, loans, cards or transfers." "bot"

/-- Fixed message shown for a non-JSON `/chat` response (line 84). -/
def sessionExpiredMsg : String :=
  "⚠️ Session expired or server error. Please sign in again."

/-- Fixed message shown when the `fetch` rejects (line 104). -/
def networkErrorMsg : String :=
  "⚠️ Network error. Please try again."

/-- Which of the DOM elements looked up in the ready callback
(lines 9-14) are present on the page. -/
structure Dom where
  fab : Bool
  panel : Bool
  closeBt : Bool
  sendBt : Bool
  input : Bool
  log : Bool
deriving DecidableEq, Repr

/-- Observable outcome of the ready callback: whether the
missing-element error was logged and which event listeners were
attached (lines 16-19, 58-59, 109-119). -/
structure InitResult where
  errorLogged : Bool
  fabListener : Bool
  closeListener : Bool
  sendListener : Bool
  inputKeyListener : Bool
  docKeyListener : Bool
deriving DecidableEq, Repr

/-- The disabled outcome: error logged, nothing attached. -/
def disabledInit : InitResult :=
  { errorLogged := true, fabListener := false, closeListener := false
    sendListener := false, inputKeyListener := false, docKeyListener := false }

/-- The ready callback's guard and listener wiring (lines 16-19 and
58-59, 109-119): `if (!fab || !panel || !sendBt || !input || !log)`
logs and returns, otherwise every listener is attached, the close
listener only when the close button exists (`if (closeBt) ...`). -/
def initWidget (d : Dom) : InitResult :=
  if !d.fab || !d.panel || !d.sendBt || !d.input || !d.log then
    disabledInit
  else
    { errorLogged := false, fabListener := true, closeListener := d.closeBt
      sendListener := true, inputKeyListener := true, docKeyListener := true }

/-- Widget state touched by `openPanel` / `closePanel` / `sendMsg`:
whether the panel has the `hidden` class, the `log.dataset.greeted`
string (`""` models the initially-unset attribute, which is falsy in
JS), the text input's value and focus, and the log's children. -/
structure Widget where
  panelHidden : Bool
  datasetGreeted : String
  inputValue : String
  inputFocused : Bool
  log : List Node
deriving DecidableEq, Repr

/-- `openPanel` (lines 48-55): unhide the panel; if `log.dataset.greeted`
is falsy, append the greeting and set it to `"1"`; focus the input. -/
def openPanel (w : Widget) : Widget :=
  let w1 : Widget := { w with panelHidden := false }
  let w2 : Widget :=
    if w1.datasetGreeted.isEmpty then
      { w1 with log := w1.log ++ [greetingNode], datasetGreeted := "1" }
    else w1
  { w2 with inputFocused := true }

/-- `closePanel` (line 56): add the `hidden` class to the panel. -/
def closePanel (w : Widget) : Widget :=
  { w with panelHidden := true }

/-- Parsed JSON body of a `/chat` response; each field is `none` when
the key is absent, mirroring `data.reply_html`, `data.reply`,
`data.action` reads on a plain object. -/
structure ChatData where
  replyHtmlField : Option String
  replyField : Option String
  actionField : Option String
deriving DecidableEq, Repr

/-- JS `a || b` for a possibly-absent string `a`: an absent or empty
string is falsy and falls through to `b`. -/
def jsOr (a : Option String) (b : String) : String :=
  match a with
  | some s => if s.isEmpty then b else s
  | none => b

/-- JS `String.prototype.trim`: strip whitespace from both ends. -/
def jsTrim (s : String) : String :=
  String.mk ((s.data.dropWhile Char.isWhitespace).reverse.dropWhile Char.isWhitespace).reverse

/-- `sub` occurs as a contiguous run inside the character list. -/
def listContainsSub (sub : List Char) : List Char → Bool
  | [] => sub.isEmpty
  | c :: t => sub.isPrefixOf (c :: t) || listContainsSub sub t

/-- JS `String.prototype.includes`: `sub` occurs somewhere in `s`. -/
def jsIncludes (s sub : String) : Bool :=
  listContainsSub sub.data s.data

/-- `classList.add`: append the token unless already present. -/
def addClass (classes : List String) (c : String) : List String :=
  if c ∈ classes then classes else classes ++ [c]

/-- `classList.remove`: drop the token. -/
def removeClass (classes : List String) (c : String) : List String :=
  classes.filter (fun x => x ≠ c)

/-- State of the two optional cue elements consulted by the action
dispatch (lines 94-100): presence and current class list of
`#balance-amount` and `#txn-body`. -/
structure Cues where
  balancePresent : Bool
  balanceClasses : List String
  txnPresent : Bool
  txnClasses : List String
deriving DecidableEq, Repr

/-- A pending `setTimeout` scheduled by the action dispatch: after
`delayMs` milliseconds, remove class `cls` from element `targetId`. -/
structure Timer where
  delayMs : Nat
  targetId : String
  cls : String
deriving DecidableEq, Repr

/-- Firing a pending timer: the callback `() => el.classList.remove(c)`
removes the class from the captured element. -/
def fireTimer (c : Cues) (t : Timer) : Cues :=
  if t.targetId = "balance-amount" then
    { c with balanceClasses := removeClass c.balanceClasses t.cls }
  else if t.targetId = "txn-body" then
    { c with txnClasses := removeClass c.txnClasses t.cls }
  else c

/-- A child-level operation performed on the chat log node. -/
inductive LogOp where
  | append (n : Node)
  | remove (n : Node)
deriving DecidableEq, Repr

/-- Outcome of the single `fetch("/chat", ...)` await: either the
promise rejected (network/transport failure), or it resolved with the
given `content-type` header (`none` models a null header), HTTP status
and parsed JSON body.  The body field is only consulted on the JSON
branch, as in the source. -/
inductive FetchOutcome where
  | rejected
  | resolved (contentType : Option String) (status : Nat) (data : ChatData)
deriving DecidableEq, Repr

/-- Everything observable about one `sendMsg` invocation: the final
widget and cue states, the message posted to `/chat` (`none` when no
network call was issued), the timers scheduled, and the trace of
operations on the log node. -/
structure SendOutput where
  widget : Widget
  cues : Cues
  request : Option String
  timers : List Timer
  logOps : List LogOp
deriving DecidableEq, Repr

/-- `sendMsg` (lines 62-106), for a given outcome of its one `fetch`.

The body is straight-line:
trim the input; if empty, return (lines 64-65);
append the user's message and clear the input (67-68);
append the typing bubble (70);
POST `{message: text}` (73-78);
on rejection remove the typing bubble and append the fixed
network-error message (101-105);
on resolution read the `content-type` header (null becomes `""`),
remove the typing bubble (80-81);
if the header does not include `application/json`, append the fixed
session-expired message and return (83-87);
otherwise append the bot reply `data.reply_html || data.reply || ""`
(89-91) and dispatch on `data.action` (94-100): for `"show_balance"`
with `#balance-amount` present, add class `pulse` and schedule its
removal after 400 ms; for `"show_last_txns"` with `#txn-body` present,
add class `flash` and schedule its removal after 400 ms; otherwise
nothing.  The typing bubble is the last child when removed, so its
removal is `List.dropLast`. -/
def sendMsg (w : Widget) (c : Cues) (outcome : FetchOutcome) : SendOutput :=
  let text := jsTrim w.inputValue
  if text.isEmpty then
    { widget := w, cues := c, request := none, timers := [], logOps := [] }
  else
    let userNode := mkMsg text "me"
    let log1 := w.log ++ [userNode]
    let log2 := log1 ++ [typingNode]
    match outcome with
    | FetchOutcome.rejected =>
      let errNode := mkMsg networkErrorMsg "bot"
      { widget := { w with inputValue := "", log := log2.dropLast ++ [errNode] }
        cues := c, request := some text, timers := []
        logOps := [LogOp.append userNode, LogOp.append typingNode,
                   LogOp.remove typingNode, LogOp.append errNode] }
    | FetchOutcome.resolved contentType _ data =>
      let ct := contentType.getD ""
      let log3 := log2.dropLast
      if !(jsIncludes ct "application/json") then
        let warnNode := mkMsg sessionExpiredMsg "bot"
        { widget := { w with inputValue := "", log := log3 ++ [warnNode] }
          cues := c, request := some text, timers := []
          logOps := [LogOp.append userNode, LogOp.append typingNode,
                     LogOp.remove typingNode, LogOp.append warnNode] }
      else
        let botHtml := jsOr data.replyHtmlField (jsOr data.replyField "")
        let botNode := mkMsg botHtml "bot"
        let dispatched :=
          if data.actionField = some "show_balance" then
            if c.balancePresent then
              ({ c with balanceClasses := addClass c.balanceClasses "pulse" },
               [Timer.mk 400 "balance-amount" "pulse"])
            else (c, ([] : List Timer))
          else if data.actionField = some "show_last_txns" then
            if c.txnPresent then
              ({ c with txnClasses := addClass c.txnClasses "flash" },
               [Timer.mk 400 "txn-body" "flash"])
            else (c, ([] : List Timer))
          else (c, ([] : List Timer))
        { widget := { w with inputValue := "", log := log3 ++ [botNode] }
          cues := dispatched.1, request := some text, timers := dispatched.2
          logOps := [LogOp.append userNode, LogOp.append typingNode,
                     LogOp.remove typingNode, LogOp.append botNode] }

/-- Every operation in a log trace that removes a child removes only
the typing bubble. -/
def removesOnlyTyping (ops : List LogOp) : Bool :=
  ops.all (fun op =>
    match op with
    | LogOp.remove n => n = typingNode
    | LogOp.append _ => true)

/-- Sample widget state used to instantiate theorems: empty log, fresh
session, text input holding `v`. -/
def sampleWidget (v : String) : Widget :=
  { panelHidden := true, datasetGreeted := "", inputValue := v
    inputFocused := false, log := [] }

/-- Sample cue state: both optional elements present with no classes. -/
def sampleCues : Cues :=
  { balancePresent := true, balanceClasses := []
    txnPresent := true, txnClasses := [] }

/-! ## Theorems for the claims -/

/-- The empty string literal is empty. -/
lemma emptyStr_isEmpty : "".isEmpty = true := rfl

/-- The string `"1"` stored in the greeted flag is non-empty. -/
lemma oneStr_isEmpty : "1".isEmpty = false := rfl

/-- `classList.add` makes the token a member. -/
lemma mem_addClass (l : List String) (s : String) : s ∈ addClass l s := by
  unfold addClass
  split
  · assumption
  · simp

/-- Claim C1 counterexample: the widget's guard (line 16) does not
require `#chat-close`.  With every element present except the close
button, no error is logged and the FAB listener is attached — the
widget is not disabled, contradicting the claim that the absence of any
of the six listed elements disables it. -/
theorem C1_counterexample :
    (Dom.mk true true false true true true).closeBt = false
    ∧ initWidget (Dom.mk true true false true true true) ≠ disabledInit
    ∧ (initWidget (Dom.mk true true false true true true)).errorLogged = false
    ∧ (initWidget (Dom.mk true true false true true true)).fabListener = true := by
  decide

/-- Claim C1 (amended): the required elements are exactly `#chat-fab`,
`#chat-panel`, `#chat-send`, `#chat-text`, `#chat-log`; if any of these
five is absent the widget logs an error and attaches no listener, and
if all five are present it initializes fully, attaching the close
listener exactly when `#chat-close` exists. -/
theorem C1_init (d : Dom) :
    (initWidget d).errorLogged = !(d.fab && d.panel && d.sendBt && d.input && d.log)
    ∧ (initWidget d).fabListener = (d.fab && d.panel && d.sendBt && d.input && d.log)
    ∧ (initWidget d).sendListener = (d.fab && d.panel && d.sendBt && d.input && d.log)
    ∧ (initWidget d).inputKeyListener = (d.fab && d.panel && d.sendBt && d.input && d.log)
    ∧ (initWidget d).docKeyListener = (d.fab && d.panel && d.sendBt && d.input && d.log)
    ∧ (initWidget d).closeListener
        = ((d.fab && d.panel && d.sendBt && d.input && d.log) && d.closeBt) := by
  rcases d with ⟨f, p, cb, s, i, l⟩
  cases f <;> cases p <;> cases cb <;> cases s <;> cases i <;> cases l <;> decide

/-- Claim C2: when the input's value trims to the empty string,
`sendMsg` is a complete no-op — the widget and cue states are
unchanged, no request is posted, no timer is scheduled and no log
operation is performed. -/
theorem C2_empty_noop (w : Widget) (c : Cues) (o : FetchOutcome)
    (h : (jsTrim w.inputValue).isEmpty = true) :
    sendMsg w c o =
      { widget := w, cues := c, request := none, timers := [], logOps := [] } := by
  simp [sendMsg, h]

/-- Claim C2 witness: whitespace-only input, rejected fetch. -/
theorem C2_empty_noop_witness :
    ((jsTrim (sampleWidget "   ").inputValue).isEmpty = true)
    ∧ sendMsg (sampleWidget "   ") sampleCues FetchOutcome.rejected =
        { widget := sampleWidget "   ", cues := sampleCues, request := none,
          timers := [], logOps := [] } :=
  ⟨by decide, C2_empty_noop (sampleWidget "   ") sampleCues FetchOutcome.rejected (by decide)⟩

/-- Claim C3: for a non-empty trimmed input and a JSON content-type
response, exactly two entries are added to the log net of the transient
typing placeholder: first the user's literal (trimmed) text, then the
bot reply with `reply_html` preferred over `reply`. -/
theorem C3_json_two_entries (w : Widget) (c : Cues) (ct : Option String)
    (st : Nat) (data : ChatData)
    (hne : (jsTrim w.inputValue).isEmpty = false)
    (hct : jsIncludes (ct.getD "") "application/json" = true) :
    (sendMsg w c (FetchOutcome.resolved ct st data)).widget.log =
      w.log ++ [mkMsg (jsTrim w.inputValue) "me",
                mkMsg (jsOr data.replyHtmlField (jsOr data.replyField "")) "bot"]
    ∧ (mkMsg (jsTrim w.inputValue) "me").content = jsTrim w.inputValue := by
  constructor
  · simp [sendMsg, hne, hct, List.dropLast_concat]
  · simp [mkMsg, hne]

/-- Claim C3 witness: input `"balance?"`, mocked `{"reply":"42"}`. -/
theorem C3_json_two_entries_witness :
    ((jsTrim (sampleWidget "balance?").inputValue).isEmpty = false)
    ∧ (jsIncludes ((some "application/json").getD "") "application/json" = true)
    ∧ ((sendMsg (sampleWidget "balance?") sampleCues
          (FetchOutcome.resolved (some "application/json") 200
            (ChatData.mk none (some "42") none))).widget.log =
        (sampleWidget "balance?").log ++
          [mkMsg (jsTrim (sampleWidget "balance?").inputValue) "me",
           mkMsg (jsOr (ChatData.mk none (some "42") none).replyHtmlField
             (jsOr (ChatData.mk none (some "42") none).replyField "")) "bot"]) :=
  ⟨by decide, by decide,
   (C3_json_two_entries (sampleWidget "balance?") sampleCues (some "application/json") 200
      (ChatData.mk none (some "42") none) (by decide) (by decide)).1⟩

/-- Claim C4: for a resolved response whose content type does not
include `application/json`, the typing placeholder is removed (net log
gains only the user message and the fixed session-expired warning,
which is the last entry, and the trace removes only the typing node);
the response body is never consulted (the output is the same for every
body) and no cue or timer is fired. -/
theorem C4_nonjson_warning (w : Widget) (c : Cues) (ct : Option String)
    (st : Nat) (data : ChatData)
    (hne : (jsTrim w.inputValue).isEmpty = false)
    (hct : jsIncludes (ct.getD "") "application/json" = false) :
    (sendMsg w c (FetchOutcome.resolved ct st data)).widget.log =
      w.log ++ [mkMsg (jsTrim w.inputValue) "me", mkMsg sessionExpiredMsg "bot"]
    ∧ (sendMsg w c (FetchOutcome.resolved ct st data)).widget.log.getLast?
        = some (mkMsg sessionExpiredMsg "bot")
    ∧ (sendMsg w c (FetchOutcome.resolved ct st data)).logOps =
        [LogOp.append (mkMsg (jsTrim w.inputValue) "me"), LogOp.append typingNode,
         LogOp.remove typingNode, LogOp.append (mkMsg sessionExpiredMsg "bot")]
    ∧ (sendMsg w c (FetchOutcome.resolved ct st data)).cues = c
    ∧ (sendMsg w c (FetchOutcome.resolved ct st data)).timers = []
    ∧ (∀ data' : ChatData,
        sendMsg w c (FetchOutcome.resolved ct st data')
          = sendMsg w c (FetchOutcome.resolved ct st data)) := by
  refine ⟨?_, ?_, ?_, ?_, ?_, ?_⟩ <;>
    simp [sendMsg, hne, hct, List.dropLast_concat]

/-- Claim C4 witness: input `"hi"`, mocked `text/html` response. -/
theorem C4_nonjson_warning_witness :
    ((jsTrim (sampleWidget "hi").inputValue).isEmpty = false)
    ∧ (jsIncludes ((some "text/html").getD "") "application/json" = false)
    ∧ ((sendMsg (sampleWidget "hi") sampleCues
          (FetchOutcome.resolved (some "text/html") 200
            (ChatData.mk none (some "raw body") none))).widget.log.getLast?
        = some (mkMsg sessionExpiredMsg "bot")) :=
  ⟨by decide, by decide,
   (C4_nonjson_warning (sampleWidget "hi") sampleCues (some "text/html") 200
      (ChatData.mk none (some "raw body") none) (by decide) (by decide)).2.1⟩

/-- Claim C5: when the fetch rejects, the typing placeholder is removed
(the net log gains only the user message and the fixed network-error
message, which is the last entry) and exactly one request was issued —
the failure is terminal for that send: no retry, no timer. -/
theorem C5_network_failure (w : Widget) (c : Cues)
    (hne : (jsTrim w.inputValue).isEmpty = false) :
    (sendMsg w c FetchOutcome.rejected).widget.log =
      w.log ++ [mkMsg (jsTrim w.inputValue) "me", mkMsg networkErrorMsg "bot"]
    ∧ (sendMsg w c FetchOutcome.rejected).widget.log.getLast?
        = some (mkMsg networkErrorMsg "bot")
    ∧ (sendMsg w c FetchOutcome.rejected).request = some (jsTrim w.inputValue)
    ∧ (sendMsg w c FetchOutcome.rejected).timers = []
    ∧ (sendMsg w c FetchOutcome.rejected).logOps =
        [LogOp.append (mkMsg (jsTrim w.inputValue) "me"), LogOp.append typingNode,
         LogOp.remove typingNode, LogOp.append (mkMsg networkErrorMsg "bot")] := by
  refine ⟨?_, ?_, ?_, ?_, ?_⟩ <;> simp [sendMsg, hne, List.dropLast_concat]

/-- Claim C5 witness: input `"hello"`, rejected fetch. -/
theorem C5_network_failure_witness :
    ((jsTrim (sampleWidget "hello").inputValue).isEmpty = false)
    ∧ ((sendMsg (sampleWidget "hello") sampleCues FetchOutcome.rejected).widget.log.getLast?
        = some (mkMsg networkErrorMsg "bot")) :=
  ⟨by decide,
   (C5_network_failure (sampleWidget "hello") sampleCues (by decide)).2.1⟩

/-- Claim C6: on a JSON response, when the action is `show_balance` and
`#balance-amount` exists, the element gains the `pulse` class and a
single timer — with delay inside the 200–400 ms window — is scheduled
whose firing removes the class again; for any action other than
`show_balance` and `show_last_txns` (including absent) the cue elements
are untouched and no timer is scheduled. -/
theorem C6_action_cues (w : Widget) (c : Cues) (ct : Option String)
    (st : Nat) (data : ChatData)
    (hne : (jsTrim w.inputValue).isEmpty = false)
    (hct : jsIncludes (ct.getD "") "application/json" = true) :
    (data.actionField = some "show_balance" → c.balancePresent = true →
      (sendMsg w c (FetchOutcome.resolved ct st data)).cues.balanceClasses
          = addClass c.balanceClasses "pulse"
      ∧ "pulse" ∈ (sendMsg w c (FetchOutcome.resolved ct st data)).cues.balanceClasses
      ∧ (sendMsg w c (FetchOutcome.resolved ct st data)).timers
          = [Timer.mk 400 "balance-amount" "pulse"]
      ∧ (∀ t ∈ (sendMsg w c (FetchOutcome.resolved ct st data)).timers,
          200 ≤ t.delayMs ∧ t.delayMs ≤ 400)
      ∧ "pulse" ∉ (fireTimer (sendMsg w c (FetchOutcome.resolved ct st data)).cues
            (Timer.mk 400 "balance-amount" "pulse")).balanceClasses)
    ∧ (data.actionField ≠ some "show_balance" → data.actionField ≠ some "show_last_txns" →
        (sendMsg w c (FetchOutcome.resolved ct st data)).cues = c
        ∧ (sendMsg w c (FetchOutcome.resolved ct st data)).timers = []) := by
  constructor
  · intro hact hel
    have hcues : (sendMsg w c (FetchOutcome.resolved ct st data)).cues
        = { c with balanceClasses := addClass c.balanceClasses "pulse" } := by
      simp [sendMsg, hne, hct, hact, hel]
    have htimers : (sendMsg w c (FetchOutcome.resolved ct st data)).timers
        = [Timer.mk 400 "balance-amount" "pulse"] := by
      simp [sendMsg, hne, hct, hact, hel]
    refine ⟨?_, ?_, htimers, ?_, ?_⟩
    · rw [hcues]
    · rw [hcues]
      exact mem_addClass _ _
    · rw [htimers]
      intro t ht
      simp only [List.mem_singleton] at ht
      subst ht
      exact ⟨by norm_num, le_refl _⟩
    · rw [hcues]
      simp [fireTimer, removeClass, List.mem_filter]
  · intro h1 h2
    constructor <;> simp [sendMsg, hne, hct, h1, h2]

/-- Claim C6 witness: `show_balance` with the element present, and an
unknown action `"dance"` leaving the cues untouched. -/
theorem C6_action_cues_witness :
    ("pulse" ∈ (sendMsg (sampleWidget "bal") sampleCues
        (FetchOutcome.resolved (some "application/json") 200
          (ChatData.mk none (some "ok") (some "show_balance")))).cues.balanceClasses)
    ∧ ((sendMsg (sampleWidget "bal") sampleCues
        (FetchOutcome.resolved (some "application/json") 200
          (ChatData.mk none (some "ok") (some "dance")))).cues = sampleCues) :=
  ⟨((C6_action_cues (sampleWidget "bal") sampleCues (some "application/json") 200
      (ChatData.mk none (some "ok") (some "show_balance")) (by decide) (by decide)).1
      (by decide) (by decide)).2.1,
   ((C6_action_cues (sampleWidget "bal") sampleCues (some "application/json") 200
      (ChatData.mk none (some "ok") (some "dance")) (by decide) (by decide)).2
      (by decide) (by decide)).1⟩

/-- Claim C7: in a fresh session (greeted flag unset), `openPanel` run
twice appends the greeting exactly once, the flag being set by the
first call; and every `openPanel` call unhides the panel and focuses
the text input. -/
theorem C7_greet_once (w : Widget) (h : w.datasetGreeted = "") :
    (openPanel w).log = w.log ++ [greetingNode]
    ∧ (openPanel (openPanel w)).log = w.log ++ [greetingNode]
    ∧ (openPanel w).datasetGreeted = "1"
    ∧ (∀ w' : Widget, (openPanel w').panelHidden = false
        ∧ (openPanel w').inputFocused = true) := by
  refine ⟨?_, ?_, ?_, ?_⟩
  · simp [openPanel, h, emptyStr_isEmpty]
  · simp [openPanel, h, emptyStr_isEmpty, oneStr_isEmpty]
  · simp [openPanel, h, emptyStr_isEmpty]
  · intro w'
    constructor
    · simp only [openPanel]
      split <;> rfl
    · simp only [openPanel]

/-- Claim C7 witness: a fresh sample widget. -/
theorem C7_greet_once_witness :
    ((sampleWidget "").datasetGreeted = "")
    ∧ ((openPanel (openPanel (sampleWidget ""))).log
        = (sampleWidget "").log ++ [greetingNode]) :=
  ⟨by decide, (C7_greet_once (sampleWidget "") (by decide)).2.1⟩

/-- Claim C8 counterexample: the claim that the log node is only ever
appended to fails — on a successful send the widget removes the typing
placeholder, a child it had appended to the log moments before: the
operation trace of this concrete send contains a remove. -/
theorem C8_counterexample :
    LogOp.remove typingNode ∈
      (sendMsg (sampleWidget "hi") sampleCues
        (FetchOutcome.resolved (some "application/json") 200
          (ChatData.mk none (some "42") none))).logOps := by
  decide

/-- Claim C8 (amended): the log is append-only up to the transient
typing placeholder — every child present before an operation is still
present, in order, afterwards (the old log is a prefix of the new one),
and the only child any trace ever removes is the typing placeholder the
same send created; `openPanel` also only appends. -/
theorem C8_append_only (w : Widget) (c : Cues) (o : FetchOutcome) :
    (∃ t, (sendMsg w c o).widget.log = w.log ++ t)
    ∧ removesOnlyTyping (sendMsg w c o).logOps = true
    ∧ (∃ t, (openPanel w).log = w.log ++ t) := by
  refine ⟨?_, ?_, ?_⟩
  · cases o with
    | rejected =>
      by_cases h : (jsTrim w.inputValue).isEmpty <;>
        simp [sendMsg, h, List.dropLast_concat]
    | resolved ct st data =>
      by_cases h : (jsTrim w.inputValue).isEmpty
      · simp [sendMsg, h]
      · by_cases hct : jsIncludes (ct.getD "") "application/json" <;>
          simp [sendMsg, h, hct, List.dropLast_concat]
  · cases o with
    | rejected =>
      by_cases h : (jsTrim w.inputValue).isEmpty <;>
        simp [sendMsg, h, removesOnlyTyping]
    | resolved ct st data =>
      by_cases h : (jsTrim w.inputValue).isEmpty
      · simp [sendMsg, h, removesOnlyTyping]
      · by_cases hct : jsIncludes (ct.getD "") "application/json" <;>
          simp [sendMsg, h, hct, removesOnlyTyping]
  · simp only [openPanel]
    split
    · exact ⟨[greetingNode], by simp⟩
    · exact ⟨[], by simp⟩

/-- Claim C9: `sendMsg` never inspects the HTTP status — for a JSON
content-type response the whole observable outcome is identical for any
two statuses, and in particular a 500 response with a JSON body is
rendered as a normal bot reply. -/
theorem C9_status_ignored (w : Widget) (c : Cues) (ct : Option String)
    (data : ChatData) (s1 s2 : Nat)
    (hct : jsIncludes (ct.getD "") "application/json" = true) :
    sendMsg w c (FetchOutcome.resolved ct s1 data)
      = sendMsg w c (FetchOutcome.resolved ct s2 data)
    ∧ ((jsTrim w.inputValue).isEmpty = false →
        (sendMsg w c (FetchOutcome.resolved ct 500 data)).widget.log
          = w.log ++ [mkMsg (jsTrim w.inputValue) "me",
                      mkMsg (jsOr data.replyHtmlField (jsOr data.replyField "")) "bot"]) := by
  constructor
  · rfl
  · intro hne
    simp [sendMsg, hne, hct, List.dropLast_concat]

/-- Claim C9 witness: HTTP 500 with a JSON body behaves exactly like
HTTP 200 and renders the reply. -/
theorem C9_status_ignored_witness :
    (jsIncludes ((some "application/json").getD "") "application/json" = true)
    ∧ (sendMsg (sampleWidget "q") sampleCues
        (FetchOutcome.resolved (some "application/json") 500
          (ChatData.mk none (some "oops") none))
      = sendMsg (sampleWidget "q") sampleCues
        (FetchOutcome.resolved (some "application/json") 200
          (ChatData.mk none (some "oops") none)))
    ∧ ((jsTrim (sampleWidget "q").inputValue).isEmpty = false)
    ∧ ((sendMsg (sampleWidget "q") sampleCues
        (FetchOutcome.resolved (some "application/json") 500
          (ChatData.mk none (some "oops") none))).widget.log
      = (sampleWidget "q").log ++
          [mkMsg (jsTrim (sampleWidget "q").inputValue) "me",
           mkMsg (jsOr (ChatData.mk none (some "oops") none).replyHtmlField
             (jsOr (ChatData.mk none (some "oops") none).replyField "")) "bot"]) :=
  ⟨by decide,
   (C9_status_ignored (sampleWidget "q") sampleCues (some "application/json")
      (ChatData.mk none (some "oops") none) 500 200 (by decide)).1,
   by decide,
   (C9_status_ignored (sampleWidget "q") sampleCues (some "application/json")
      (ChatData.mk none (some "oops") none) 500 200 (by decide)).2 (by decide)⟩

/-- Claim C10: `addMsg` replaces every falsy (empty) message text by
the fixed `"…"` placeholder; in particular, when both `reply_html` and
`reply` are absent or empty in a JSON response, the appended bot node
displays `"…"`. -/
theorem C10_ellipsis_fallback (text who : String) (w : Widget) (c : Cues)
    (ct : Option String) (st : Nat) (data : ChatData)
    (hne : (jsTrim w.inputValue).isEmpty = false)
    (hct : jsIncludes (ct.getD "") "application/json" = true)
    (hrh : data.replyHtmlField = none ∨ data.replyHtmlField = some "")
    (hr : data.replyField = none ∨ data.replyField = some "") :
    (mkMsg text who).content = (if text.isEmpty then "…" else text)
    ∧ jsOr data.replyHtmlField (jsOr data.replyField "") = ""
    ∧ (sendMsg w c (FetchOutcome.resolved ct st data)).widget.log.getLast?
        = some (mkMsg "" "bot")
    ∧ (mkMsg "" "bot").content = "…" := by
  have hsel : jsOr data.replyHtmlField (jsOr data.replyField "") = "" := by
    rcases hrh with h1 | h1 <;> rcases hr with h2 | h2 <;> simp [jsOr, h1, h2]
  refine ⟨rfl, hsel, ?_, rfl⟩
  simp [sendMsg, hne, hct, hsel, List.dropLast_concat]

/-- Claim C10 witness: `reply_html` empty and `reply` absent yield the
placeholder bot node. -/
theorem C10_ellipsis_fallback_witness :
    ((jsTrim (sampleWidget "m").inputValue).isEmpty = false)
    ∧ ((ChatData.mk (some "") none none).replyHtmlField = none
        ∨ (ChatData.mk (some "") none none).replyHtmlField = some "")
    ∧ ((ChatData.mk (some "") none none).replyField = none
        ∨ (ChatData.mk (some "") none none).replyField = some "")
    ∧ ((sendMsg (sampleWidget "m") sampleCues
          (FetchOutcome.resolved (some "application/json") 200
            (ChatData.mk (some "") none none))).widget.log.getLast?
        = some (mkMsg "" "bot")) :=
  ⟨by decide, Or.inr rfl, Or.inl rfl,
   (C10_ellipsis_fallback "x" "bot" (sampleWidget "m") sampleCues
      (some "application/json") 200 (ChatData.mk (some "") none none)
      (by decide) (by decide) (Or.inr rfl) (Or.inl rfl)).2.2.1⟩
